import Mathlib

/-!
Verification development for the pricing core of the
`rdcs-pricing-function` repository (a landscaping instant-pricing service).

The TypeScript sources embedded here are:
  * `backend/src/services/pricingEngine.ts` — the tier pricing calculator
    (`calculateAllTiers`, `calculateDistanceMultiplier`, the per-service cost
    helpers, `estimateLaborHours`, `calculateMulchYardage`);
  * `backend/src/services/aiVision.ts` — `conditionScoreToMultiplier`;
  * the upsell recommendation engine — `generateUpsells`.

Modelling conventions:
  * JavaScript numbers are modelled as exact rationals (`ℚ`); `Math.round`
    is `jsRound` (floor of `x + 1/2`, which agrees with JS round-half-up for
    every input, negative inputs included), `Math.ceil` is `Int.ceil`.
  * Optional numeric fields of a property record are `Option ℚ`; the JS
    idiom `v || d` (which also replaces `0` by the default) is `jsOr`.
  * Database reads and environment variables are passed as explicit
    parameters: the active rate-card rows as a list, the regional
    multiplier, the (already computed) distance in miles, and the
    configured service-area radius (`SERVICE_AREA_RADIUS_MILES`, default 25).
  * A thrown JS exception is modelled with `Except`: `AppError` values are
    `PricingError.appError`, and the generic runtime `TypeError` produced by
    reading a field of `undefined` is `PricingError.typeError`.
-/

namespace Pricing

/-- Model of JS `Math.round`: round half toward positive infinity. -/
def jsRound (q : ℚ) : ℤ := ⌊q + 1/2⌋

/-- Model of the source idiom `Math.round(cost * 100) / 100` (round to cents). -/
def roundCents (q : ℚ) : ℚ := (jsRound (q * 100) : ℚ) / 100

/-- Model of the JS expression `v || d` on an optional numeric field:
`undefined` and `0` both fall back to the default. -/
def jsOr (v : Option ℚ) (d : ℚ) : ℚ :=
  match v with
  | none => d
  | some x => if x = 0 then d else x

/-- Model of JS truthiness of an optional numeric field:
`undefined` and `0` are falsy. -/
def jsTruthy (v : Option ℚ) : Bool :=
  match v with
  | none => false
  | some x => x != 0

/-- Enumerated `bedCondition` field of a property record. -/
inductive BedCondition
  | good
  | needs_work
  | overgrown
deriving DecidableEq, Repr

/-- Enumerated `treeCoverage` field of a property record. -/
inductive TreeCoverage
  | light
  | moderate
  | heavy
deriving DecidableEq, Repr

/-- Enumerated `grassHeight` field of a property record. -/
inductive GrassHeight
  | normal
  | overgrown
  | very_overgrown
deriving DecidableEq, Repr

/-- Service types (`ServiceType` in `types/index.ts`). -/
inductive ServiceType
  | mowing
  | cleanup
  | mulch
  | softscape
  | maintenance
deriving DecidableEq, Repr

/-- Pricing tiers (`TierType` in `types/index.ts`). -/
inductive TierType
  | grass_roots
  | premier
  | total_landscape
deriving DecidableEq, Repr

/-- Rate card row (`RateCard` in `types/index.ts`), restricted to the fields
the pricing logic reads.  `baseRate` and `factor` are JS numbers. -/
structure RateCard where
  serviceCode : String
  baseRate : ℚ
  factor : ℚ
  active : Bool
deriving DecidableEq, Repr

/-- Property snapshot (`Property` in `types/index.ts`), restricted to the
fields the pricing and upsell logic reads.  Address, imagery and bookkeeping
fields are omitted; `lat`/`lng`/`zipCode` are represented indirectly by the
distance-in-miles and regional-multiplier parameters of the functions that
consume them. -/
structure Property where
  lawnSqft : Option ℚ := none
  bedSqft : Option ℚ := none
  rooflineFt : Option ℚ := none
  conditionScore : Option ℚ := none
  bushCount : Option ℚ := none
  treeCoverage : Option TreeCoverage := none
  grassHeight : Option GrassHeight := none
  bedCondition : Option BedCondition := none
deriving DecidableEq, Repr

/-- Error values a pricing computation can surface.  `appError` models a
thrown `AppError(message, statusCode)`; `typeError` models the generic JS
runtime `TypeError` raised by reading a property of `undefined` (which is
what the unchecked `rateCardMap.get(...)!` results produce downstream). -/
inductive PricingError
  | appError (message : String) (statusCode : ℕ)
  | typeError
deriving DecidableEq, Repr

/-- One tier quote returned by `calculateAllTiers`.  The `breakdown` object
is modelled as an association list from line-item name to its rounded
value, in the construction order of the source object literal. -/
structure TierQuote where
  tier : TierType
  tierName : String
  annualPrice : ℤ
  monthlyPrice : ℤ
  breakdown : List (String × ℤ)
deriving DecidableEq, Repr

/-- Source `conditionScoreToMultiplier` (aiVision.ts, lines 176-186):
table lookup `{1: 0.9, 2: 1.0, 3: 1.1, 4: 1.25, 5: 1.5}` with the JS
fallback `|| 1.0` for any score not in the table (all table values are
truthy, so the fallback fires exactly on missing keys). -/
def conditionScoreToMultiplier (score : ℚ) : ℚ :=
  if score = 1 then 9/10
  else if score = 2 then 1
  else if score = 3 then 11/10
  else if score = 4 then 5/4
  else if score = 5 then 3/2
  else 1

/-- Source `calculateDistanceMultiplier` (pricingEngine.ts, lines 80-92).
`maxDistance` models `parseFloat(process.env.SERVICE_AREA_RADIUS_MILES || '25')`. -/
def calculateDistanceMultiplier (maxDistance : ℚ) (distanceMiles : ℚ) : ℚ :=
  if distanceMiles ≤ 10 then 1
  else if distanceMiles ≤ 20 then 21/20
  else if distanceMiles ≤ maxDistance then 11/10
  else 6/5

/-- Source `calculateMowingCost` (pricingEngine.ts, lines 97-107). -/
def calculateMowingCost (lawnSqft : ℚ) (rateCard : RateCard) (multiplier : ℚ) : ℚ :=
  roundCents ((lawnSqft / 1000) * rateCard.baseRate * rateCard.factor * multiplier)

/-- Source `calculateLeafCleanupCost` (pricingEngine.ts, lines 112-123):
full cleanup uses the rate-card factor as the number of cleanups, basic
cleanup uses 1. -/
def calculateLeafCleanupCost (lawnSqft : ℚ) (rateCard : RateCard) (multiplier : ℚ)
    (fullCleanup : Bool) : ℚ :=
  roundCents ((lawnSqft / 1000) * rateCard.baseRate *
    (if fullCleanup then rateCard.factor else 1) * multiplier)

/-- Source `calculateSeasonalPackageCost` (pricingEngine.ts, lines 128-132). -/
def calculateSeasonalPackageCost (rateCard : RateCard) (multiplier : ℚ) : ℚ :=
  roundCents (rateCard.baseRate * multiplier)

/-- Source `calculateLightsCost` (pricingEngine.ts, lines 137-146). -/
def calculateLightsCost (rooflineFt : ℚ) (rateCard : RateCard) (multiplier : ℚ) : ℚ :=
  roundCents (rooflineFt * rateCard.baseRate * multiplier)

/-- Model of `rateCardMap.get(code)` where the map is built by
`new Map(rateCards.map(rc => [rc.serviceCode, rc]))` over the rows the
database returned for `.eq('active', true)`: only active rows are present,
and for duplicate service codes a JS `Map` keeps the last binding. -/
def rateCardMapGet (rateCards : List RateCard) (code : String) : Option RateCard :=
  ((rateCards.filter fun rc => rc.active).reverse).find? fun rc => rc.serviceCode == code

/-- Complexity multiplier as selected by `calculateAllTiers`
(pricingEngine.ts, lines 182-184): `conditionScoreToMultiplier(property.conditionScore || 3)`. -/
def complexityMultiplierOf (property : Property) : ℚ :=
  conditionScoreToMultiplier (jsOr property.conditionScore 3)

/-- Combined multiplier of `calculateAllTiers` (pricingEngine.ts, line 192):
`regionalMultiplier * complexityMultiplier * distanceMultiplier`. -/
def totalMultiplierFor (property : Property) (regionalMultiplier : ℚ)
    (distanceMiles : ℚ) (serviceAreaRadiusMiles : ℚ) : ℚ :=
  regionalMultiplier * complexityMultiplierOf property *
    calculateDistanceMultiplier serviceAreaRadiusMiles distanceMiles

/-- Body of the success path of `calculateAllTiers` (pricingEngine.ts,
lines 203-277), once the four required rate cards have been obtained:
the three tier quotes, in source order. -/
def tierQuotesFor (property : Property) (mowingCard leafCard seasonalCard lightsCard : RateCard)
    (regionalMultiplier : ℚ) (distanceMiles : ℚ) (serviceAreaRadiusMiles : ℚ) :
    List TierQuote :=
  let totalMultiplier :=
    totalMultiplierFor property regionalMultiplier distanceMiles serviceAreaRadiusMiles
  let lawnSqft := jsOr property.lawnSqft 0
  let rooflineFt := jsOr property.rooflineFt 0
  let mowingCost := calculateMowingCost lawnSqft mowingCard totalMultiplier
  let fullLeafCost := calculateLeafCleanupCost lawnSqft leafCard totalMultiplier true
  let basicLeafCost := fullLeafCost * (1/4)
  let tier1Annual := mowingCost + basicLeafCost
  let seasonalCost := calculateSeasonalPackageCost seasonalCard totalMultiplier
  let tier2Annual := mowingCost + fullLeafCost + seasonalCost
  let lightsCost := calculateLightsCost rooflineFt lightsCard totalMultiplier
  let tier3Base := tier2Annual + lightsCost
  let tier3Annual := tier3Base * (23/20)
  [ { tier := TierType.grass_roots
      tierName := "Grass Roots"
      annualPrice := jsRound tier1Annual
      monthlyPrice := jsRound (tier1Annual / 12)
      breakdown :=
        [("mowing", jsRound mowingCost), ("leafCleanup", jsRound basicLeafCost)] },
    { tier := TierType.premier
      tierName := "Premier Lawn"
      annualPrice := jsRound tier2Annual
      monthlyPrice := jsRound (tier2Annual / 12)
      breakdown :=
        [("mowing", jsRound mowingCost), ("leafCleanup", jsRound fullLeafCost),
         ("seasonal", jsRound seasonalCost)] },
    { tier := TierType.total_landscape
      tierName := "Total Landscape"
      annualPrice := jsRound tier3Annual
      monthlyPrice := jsRound (tier3Annual / 12)
      breakdown :=
        [("mowing", jsRound mowingCost), ("leafCleanup", jsRound fullLeafCost),
         ("seasonal", jsRound seasonalCost), ("lights", jsRound lightsCost),
         ("premiumMarkup", jsRound (tier3Base * (3/20)))] } ]

/-- Source `calculateAllTiers` (pricingEngine.ts, lines 166-278).
Explicit parameters stand for its I/O: `rateCards` is the full `rate_cards`
table (the active-row filter of `loadRateCards` is applied inside
`rateCardMapGet`), `regionalMultiplier` the result of
`getRegionalMultiplier`, `distanceMiles` the result of
`calculateDistanceFromServiceCenter`, and `serviceAreaRadiusMiles` the
configured radius.  The four `rateCardMap.get(...)!` lookups are unchecked
in the source; a missing or inactive required card therefore surfaces as a
generic runtime `TypeError` at the first field access of the `undefined`
value, modelled by `Except.error PricingError.typeError`. -/
def calculateAllTiers (property : Property) (rateCards : List RateCard)
    (regionalMultiplier : ℚ) (distanceMiles : ℚ) (serviceAreaRadiusMiles : ℚ) :
    Except PricingError (List TierQuote) :=
  match rateCardMapGet rateCards "MOWING_BASE", rateCardMapGet rateCards "LEAF_CLEANUP",
      rateCardMapGet rateCards "SEASONAL_PACKAGE", rateCardMapGet rateCards "LIGHTS_INSTALL" with
  | some mowingCard, some leafCard, some seasonalCard, some lightsCard =>
    Except.ok (tierQuotesFor property mowingCard leafCard seasonalCard lightsCard
      regionalMultiplier distanceMiles serviceAreaRadiusMiles)
  | _, _, _, _ => Except.error PricingError.typeError

/-- Quote for a given tier in a `calculateAllTiers` result. -/
def findTier (result : Except PricingError (List TierQuote)) (t : TierType) :
    Option TierQuote :=
  match result with
  | Except.ok quotes => quotes.find? fun q => q.tier == t
  | Except.error _ => none

/-- Sum of the line items of a breakdown object. -/
def breakdownSum (q : TierQuote) : ℤ := (q.breakdown.map Prod.snd).sum

/-- Source `calculateMulchYardage` (pricingEngine.ts, lines 329-333). -/
def calculateMulchYardage (bedSqft : ℚ) (depthInches : ℚ := 3) : ℚ :=
  (⌈(bedSqft * depthInches) / 324 * 2⌉ : ℚ) / 2

/-- Square feet one labor hour covers, per service type — the divisors of
the `baseHours` record in `estimateLaborHours` (pricingEngine.ts, lines 343-349). -/
def sqftPerHour (serviceType : ServiceType) : ℚ :=
  match serviceType with
  | ServiceType.mowing => 5000
  | ServiceType.cleanup => 2000
  | ServiceType.mulch => 1000
  | ServiceType.softscape => 500
  | ServiceType.maintenance => 3000

/-- Source `estimateLaborHours` (pricingEngine.ts, lines 338-356).  The JS
expression `baseHours[serviceType] || 2` yields the default 2 whenever the
computed base is falsy, which for a well-typed service type happens exactly
when `lawnSqft / ratio` is 0. -/
def estimateLaborHours (serviceType : ServiceType) (lawnSqft : ℚ)
    (complexityScore : ℚ) : ℚ :=
  let baseRaw := lawnSqft / sqftPerHour serviceType
  let base := if baseRaw = 0 then 2 else baseRaw
  let complexityFactor := complexityScore / 3
  let hours := base * complexityFactor
  (⌈hours * 2⌉ : ℚ) / 2

/-- Source `determineCrewSize` (pricingEngine.ts, lines 361-369). -/
def determineCrewSize (serviceType : ServiceType) (lawnSqft : ℚ) : ℕ :=
  if lawnSqft < 5000 then 2
  else if lawnSqft < 15000 then 3
  else 4

/-- Upsell line item (`Upsell` in `types/index.ts`).  The free-text
`description` field (display only, never read by any logic) is omitted. -/
structure Upsell where
  serviceCode : String
  serviceName : String
  price : ℤ
  recommended : Bool
deriving DecidableEq, Repr

/-- Rule 1 of `generateUpsells` (upsell engine, lines 44-64): bed edging.
`sqrtFn` models the opaque `Math.sqrt` primitive (an exact square root of a
rational is in general irrational, so the engine is parametrized by it). -/
def upsellEdgingRule (p : Property) (sqrtFn : ℚ → ℚ) (cards : List RateCard) : List Upsell :=
  if jsTruthy p.bedSqft ∧ 0 < p.bedSqft.getD 0 ∧ p.bedCondition ≠ some BedCondition.good then
    match rateCardMapGet cards "EDGING" with
    | some edgingCard =>
      let bedPerimeter := sqrtFn (p.bedSqft.getD 0) * 4
      [ { serviceCode := "EDGING"
          serviceName := "Professional Bed Edging"
          price := jsRound (bedPerimeter * edgingCard.baseRate)
          recommended := true } ]
    | none => []
  else []

/-- Rule 2 of `generateUpsells` (upsell engine, lines 66-80): bush trimming. -/
def upsellBushRule (p : Property) (cards : List RateCard) : List Upsell :=
  if jsTruthy p.bushCount ∧ 5 < p.bushCount.getD 0 then
    match rateCardMapGet cards "BUSH_TRIMMING" with
    | some bushCard =>
      [ { serviceCode := "BUSH_TRIMMING"
          serviceName := "Seasonal Bush Trimming"
          price := jsRound (p.bushCount.getD 0 * bushCard.baseRate)
          recommended := decide (p.bedCondition = some BedCondition.overgrown) } ]
    | none => []
  else []

/-- Rule 3 of `generateUpsells` (upsell engine, lines 82-101): mulch install. -/
def upsellMulchRule (p : Property) (cards : List RateCard) : List Upsell :=
  if jsTruthy p.bedSqft ∧ 200 < p.bedSqft.getD 0 ∧ p.bedCondition ≠ some BedCondition.good then
    match rateCardMapGet cards "MULCH_INSTALL" with
    | some mulchCard =>
      let cubicYards := calculateMulchYardage (p.bedSqft.getD 0) 3
      [ { serviceCode := "MULCH_INSTALL"
          serviceName := "Fresh Mulch Installation"
          price := jsRound (cubicYards * mulchCard.baseRate)
          recommended := decide (p.bedCondition = some BedCondition.overgrown) } ]
    | none => []
  else []

/-- Rule 4 of `generateUpsells` (upsell engine, lines 103-121): monthly bed
maintenance for the premier and total_landscape tiers. -/
def upsellBedMaintenanceRule (p : Property) (tier : TierType) (cards : List RateCard) :
    List Upsell :=
  if tier = TierType.premier ∨ tier = TierType.total_landscape then
    match rateCardMapGet cards "BED_MAINTENANCE" with
    | some bedMaintenanceCard =>
      if jsTruthy p.bedSqft then
        let bedUnits := p.bedSqft.getD 0 / 100
        let monthlyPrice := bedUnits * bedMaintenanceCard.baseRate
        [ { serviceCode := "BED_MAINTENANCE"
            serviceName := "Monthly Bed Maintenance"
            price := jsRound (monthlyPrice * 12)
            recommended := decide (500 < p.bedSqft.getD 0) } ]
      else []
    | none => []
  else []

/-- Rule 5 of `generateUpsells` (upsell engine, lines 123-141): leaf-cleanup
upgrade for the grass_roots tier under heavy tree coverage. -/
def upsellLeafUpgradeRule (p : Property) (tier : TierType) (cards : List RateCard) :
    List Upsell :=
  if tier = TierType.grass_roots ∧ p.treeCoverage = some TreeCoverage.heavy then
    match rateCardMapGet cards "LEAF_CLEANUP" with
    | some leafCard =>
      if jsTruthy p.lawnSqft then
        [ { serviceCode := "LEAF_CLEANUP_UPGRADE"
            serviceName := "Full Fall Cleanup Package"
            price := jsRound ((p.lawnSqft.getD 0 / 1000) * leafCard.baseRate * (3/2))
            recommended := true } ]
      else []
    | none => []
  else []

/-- Rule 6 of `generateUpsells` (upsell engine, lines 143-156): seasonal
package for the grass_roots tier. -/
def upsellSeasonalRule (p : Property) (tier : TierType) (cards : List RateCard) :
    List Upsell :=
  if tier = TierType.grass_roots then
    match rateCardMapGet cards "SEASONAL_PACKAGE" with
    | some seasonalCard =>
      [ { serviceCode := "SEASONAL_PACKAGE"
          serviceName := "Seasonal Care Package"
          price := jsRound seasonalCard.baseRate
          recommended := decide (p.grassHeight = some GrassHeight.overgrown) } ]
    | none => []
  else []

/-- Rule 7 of `generateUpsells` (upsell engine, lines 158-173): holiday
lights for the non-total_landscape tiers. -/
def upsellLightsRule (p : Property) (tier : TierType) (cards : List RateCard) :
    List Upsell :=
  if tier ≠ TierType.total_landscape ∧ jsTruthy p.rooflineFt then
    match rateCardMapGet cards "LIGHTS_INSTALL" with
    | some lightsCard =>
      [ { serviceCode := "LIGHTS_INSTALL"
          serviceName := "Holiday Lights Installation"
          price := jsRound (p.rooflineFt.getD 0 * lightsCard.baseRate)
          recommended := false } ]
    | none => []
  else []

/-- Source `generateUpsells` (upsell engine, lines 19-184).  `dbRateCards`
models the supabase query result: `none` when the rate cards could not be
loaded (the source logs a warning and returns `[]`), otherwise the rows of
the `rate_cards` table.  The seven sequential `upsells.push` blocks of the
source are the seven rule functions above, concatenated in source order.
`serviceType` is only logged by the source and does not affect the result. -/
def generateUpsells (p : Property) (serviceType : ServiceType) (tier : TierType)
    (sqrtFn : ℚ → ℚ) (dbRateCards : Option (List RateCard)) : List Upsell :=
  match dbRateCards with
  | none => []
  | some cards =>
    upsellEdgingRule p sqrtFn cards ++ upsellBushRule p cards ++
      upsellMulchRule p cards ++ upsellBedMaintenanceRule p tier cards ++
      upsellLeafUpgradeRule p tier cards ++ upsellSeasonalRule p tier cards ++
      upsellLightsRule p tier cards

/-- Local `mowingCost` of `calculateAllTiers` (pricingEngine.ts, line 207),
as a function of the property, the mowing card and the multiplier inputs. -/
def mowingCostFor (p : Property) (mc : RateCard) (rm dm md : ℚ) : ℚ :=
  calculateMowingCost (jsOr p.lawnSqft 0) mc (totalMultiplierFor p rm dm md)

/-- Local `fullLeafCost` of `calculateAllTiers` (pricingEngine.ts, line 208). -/
def fullLeafCostFor (p : Property) (lc : RateCard) (rm dm md : ℚ) : ℚ :=
  calculateLeafCleanupCost (jsOr p.lawnSqft 0) lc (totalMultiplierFor p rm dm md) true

/-- Local `seasonalCost` of `calculateAllTiers` (pricingEngine.ts, line 217). -/
def seasonalCostFor (p : Property) (sc : RateCard) (rm dm md : ℚ) : ℚ :=
  calculateSeasonalPackageCost sc (totalMultiplierFor p rm dm md)

/-- Local `lightsCost` of `calculateAllTiers` (pricingEngine.ts, line 224). -/
def lightsCostFor (p : Property) (ltc : RateCard) (rm dm md : ℚ) : ℚ :=
  calculateLightsCost (jsOr p.rooflineFt 0) ltc (totalMultiplierFor p rm dm md)

/-! Concrete data used for instantiations: a catalog with the example rates
of the repository's seed data, and some specific catalogs and properties
that exercise particular code paths. -/

/-- Catalog holding the four tier-pricing cards at the documented rates:
mowing 4.50 per 1000 sqft with 30 visits, leaf cleanup 6.00 per 1000 sqft
with 2 cleanups, seasonal package 650 flat, lights 3.00 per roofline foot. -/
def sampleCatalog : List RateCard :=
  [ { serviceCode := "MOWING_BASE", baseRate := 9/2, factor := 30, active := true },
    { serviceCode := "LEAF_CLEANUP", baseRate := 6, factor := 2, active := true },
    { serviceCode := "SEASONAL_PACKAGE", baseRate := 650, factor := 1, active := true },
    { serviceCode := "LIGHTS_INSTALL", baseRate := 3, factor := 1, active := true } ]

/-- Property of the end-to-end scenario: 10000 sqft lawn, 150 ft roofline,
condition score 4. -/
def sampleProperty : Property :=
  { lawnSqft := some 10000, rooflineFt := some 150, conditionScore := some 4 }

/-- Catalog in which the required `MOWING_BASE` card exists but is inactive
(the other three required cards are active). -/
def catalogInactiveMowing : List RateCard :=
  [ { serviceCode := "MOWING_BASE", baseRate := 9/2, factor := 30, active := false },
    { serviceCode := "LEAF_CLEANUP", baseRate := 6, factor := 2, active := true },
    { serviceCode := "SEASONAL_PACKAGE", baseRate := 650, factor := 1, active := true },
    { serviceCode := "LIGHTS_INSTALL", baseRate := 3, factor := 1, active := true } ]

/-- Catalog whose four tier costs each come to exactly 0.50 currency units
for a 1000 sqft lawn, 1 ft roofline and combined multiplier 1. -/
def catalogHalves : List RateCard :=
  [ { serviceCode := "MOWING_BASE", baseRate := 1/2, factor := 1, active := true },
    { serviceCode := "LEAF_CLEANUP", baseRate := 1/4, factor := 2, active := true },
    { serviceCode := "SEASONAL_PACKAGE", baseRate := 1/2, factor := 1, active := true },
    { serviceCode := "LIGHTS_INSTALL", baseRate := 1/2, factor := 1, active := true } ]

/-- Property with a 1000 sqft lawn, a 1 ft roofline and condition score 2
(complexity multiplier exactly 1). -/
def propertyHalves : Property :=
  { lawnSqft := some 1000, rooflineFt := some 1, conditionScore := some 2 }

/-- Catalog in which the grass_roots annual total comes to exactly 5.60
currency units for a 1000 sqft lawn and combined multiplier 1. -/
def catalogMonthlyGap : List RateCard :=
  [ { serviceCode := "MOWING_BASE", baseRate := 28/5, factor := 1, active := true },
    { serviceCode := "LEAF_CLEANUP", baseRate := 0, factor := 2, active := true },
    { serviceCode := "SEASONAL_PACKAGE", baseRate := 0, factor := 1, active := true },
    { serviceCode := "LIGHTS_INSTALL", baseRate := 0, factor := 1, active := true } ]

/-- Property with a 1000 sqft lawn and condition score 2. -/
def propertyMonthlyGap : Property :=
  { lawnSqft := some 1000, conditionScore := some 2 }

/-- Catalog with the four upsell cards used by the upsell trigger scenario. -/
def upsellCatalog : List RateCard :=
  [ { serviceCode := "EDGING", baseRate := 2, factor := 1, active := true },
    { serviceCode := "BUSH_TRIMMING", baseRate := 8, factor := 1, active := true },
    { serviceCode := "MULCH_INSTALL", baseRate := 95, factor := 1, active := true },
    { serviceCode := "BED_MAINTENANCE", baseRate := 25, factor := 1, active := true } ]

/-- Upsell catalog with the `EDGING` card removed. -/
def upsellCatalogNoEdging : List RateCard :=
  [ { serviceCode := "BUSH_TRIMMING", baseRate := 8, factor := 1, active := true },
    { serviceCode := "MULCH_INSTALL", baseRate := 95, factor := 1, active := true },
    { serviceCode := "BED_MAINTENANCE", baseRate := 25, factor := 1, active := true } ]

/-- Property of the upsell trigger scenario: 600 sqft of overgrown beds and
8 bushes. -/
def propertyUpsell : Property :=
  { bedSqft := some 600, bushCount := some 8,
    bedCondition := some BedCondition.overgrown }

/-! Basic lemmas about the rounding model and the multipliers. -/

lemma int_ceil_eval (q : ℚ) : (⌈q⌉ : ℤ) = -⌊-q⌋ := by
  simp [Int.floor_neg]

lemma jsRound_cast_le (q : ℚ) : (jsRound q : ℚ) ≤ q + 1/2 :=
  Int.floor_le _

lemma lt_jsRound_cast (q : ℚ) : q - 1/2 < (jsRound q : ℚ) := by
  have h := Int.lt_floor_add_one (q + 1/2)
  unfold jsRound
  linarith

lemma jsRound_mono {a b : ℚ} (h : a ≤ b) : jsRound a ≤ jsRound b :=
  Int.floor_le_floor (by linarith)

lemma jsRound_nonneg {q : ℚ} (h : 0 ≤ q) : 0 ≤ jsRound q :=
  Int.le_floor.mpr (by push_cast; linarith)

lemma roundCents_nonneg {q : ℚ} (h : 0 ≤ q) : 0 ≤ roundCents q := by
  unfold roundCents
  have h0 : 0 ≤ jsRound (q * 100) := jsRound_nonneg (by linarith)
  have h1 : (0 : ℚ) ≤ (jsRound (q * 100) : ℚ) := by exact_mod_cast h0
  linarith

lemma conditionScoreToMultiplier_pos (score : ℚ) :
    0 < conditionScoreToMultiplier score := by
  unfold conditionScoreToMultiplier
  split_ifs <;> norm_num

lemma complexityMultiplierOf_pos (p : Property) : 0 < complexityMultiplierOf p :=
  conditionScoreToMultiplier_pos _

lemma one_le_calculateDistanceMultiplier (maxDistance distanceMiles : ℚ) :
    1 ≤ calculateDistanceMultiplier maxDistance distanceMiles := by
  unfold calculateDistanceMultiplier
  split_ifs <;> norm_num

lemma totalMultiplierFor_nonneg {p : Property} {rm : ℚ} (hrm : 0 ≤ rm)
    (dm md : ℚ) : 0 ≤ totalMultiplierFor p rm dm md := by
  unfold totalMultiplierFor
  have h1 := complexityMultiplierOf_pos p
  have h2 := one_le_calculateDistanceMultiplier md dm
  positivity

lemma rateCardMapGet_mem {cards : List RateCard} {code : String} {rc : RateCard}
    (h : rateCardMapGet cards code = some rc) : rc ∈ cards := by
  unfold rateCardMapGet at h
  have h1 := List.mem_of_find?_eq_some h
  rw [List.mem_reverse] at h1
  exact List.mem_of_mem_filter h1

/-- Success-path evaluation of `calculateAllTiers`: when all four required
rate cards are found, the result is the three quotes of `tierQuotesFor`. -/
lemma calculateAllTiers_ok (p : Property) (cards : List RateCard)
    (rm dm md : ℚ) (mc lc sc ltc : RateCard)
    (hm : rateCardMapGet cards "MOWING_BASE" = some mc)
    (hl : rateCardMapGet cards "LEAF_CLEANUP" = some lc)
    (hs : rateCardMapGet cards "SEASONAL_PACKAGE" = some sc)
    (hlt : rateCardMapGet cards "LIGHTS_INSTALL" = some ltc) :
    calculateAllTiers p cards rm dm md =
      Except.ok (tierQuotesFor p mc lc sc ltc rm dm md) := by
  unfold calculateAllTiers
  rw [hm, hl, hs, hlt]

/-- Failure-path evaluation of `calculateAllTiers`: when any of the four
required lookups comes back empty, the result is the generic runtime
type error. -/
lemma calculateAllTiers_err (p : Property) (cards : List RateCard)
    (rm dm md : ℚ)
    (h : rateCardMapGet cards "MOWING_BASE" = none ∨
      rateCardMapGet cards "LEAF_CLEANUP" = none ∨
      rateCardMapGet cards "SEASONAL_PACKAGE" = none ∨
      rateCardMapGet cards "LIGHTS_INSTALL" = none) :
    calculateAllTiers p cards rm dm md = Except.error PricingError.typeError := by
  unfold calculateAllTiers
  rcases hm : rateCardMapGet cards "MOWING_BASE" with _ | mcard
  · rfl
  · rcases hl : rateCardMapGet cards "LEAF_CLEANUP" with _ | lcard
    · rfl
    · rcases hs : rateCardMapGet cards "SEASONAL_PACKAGE" with _ | scard
      · rfl
      · rcases hlt : rateCardMapGet cards "LIGHTS_INSTALL" with _ | ltcard
        · rfl
        · rw [hm, hl, hs, hlt] at h
          rcases h with h | h | h | h <;> exact absurd h (by simp)

lemma calculateMowingCost_nonneg {lawn mult : ℚ} {rc : RateCard}
    (hlawn : 0 ≤ lawn) (hb : 0 ≤ rc.baseRate) (hf : 0 ≤ rc.factor) (hmult : 0 ≤ mult) :
    0 ≤ calculateMowingCost lawn rc mult := by
  unfold calculateMowingCost
  apply roundCents_nonneg
  have h1 : 0 ≤ lawn / 1000 := by positivity
  exact mul_nonneg (mul_nonneg (mul_nonneg h1 hb) hf) hmult

lemma calculateLeafCleanupCost_nonneg {lawn mult : ℚ} {rc : RateCard} {full : Bool}
    (hlawn : 0 ≤ lawn) (hb : 0 ≤ rc.baseRate) (hf : 0 ≤ rc.factor) (hmult : 0 ≤ mult) :
    0 ≤ calculateLeafCleanupCost lawn rc mult full := by
  unfold calculateLeafCleanupCost
  apply roundCents_nonneg
  have h1 : 0 ≤ lawn / 1000 := by positivity
  have h2 : 0 ≤ (if full then rc.factor else 1) := by
    cases full <;> simp [hf]
  exact mul_nonneg (mul_nonneg (mul_nonneg h1 hb) h2) hmult

lemma calculateSeasonalPackageCost_nonneg {mult : ℚ} {rc : RateCard}
    (hb : 0 ≤ rc.baseRate) (hmult : 0 ≤ mult) :
    0 ≤ calculateSeasonalPackageCost rc mult := by
  unfold calculateSeasonalPackageCost
  exact roundCents_nonneg (mul_nonneg hb hmult)

lemma calculateLightsCost_nonneg {roofline mult : ℚ} {rc : RateCard}
    (hroof : 0 ≤ roofline) (hb : 0 ≤ rc.baseRate) (hmult : 0 ≤ mult) :
    0 ≤ calculateLightsCost roofline rc mult := by
  unfold calculateLightsCost
  exact roundCents_nonneg (mul_nonneg (mul_nonneg hroof hb) hmult)

lemma int_le_of_rat_lt {x n : ℤ} (h : (x : ℚ) < (n : ℚ) + 1) : x ≤ n := by
  have hx : x < n + 1 := by exact_mod_cast h
  omega

lemma int_neg_le_of_rat_lt {x n : ℤ} (h : -(n : ℚ) - 1 < (x : ℚ)) : -n ≤ x := by
  have hx : -n - 1 < x := by exact_mod_cast h
  omega

/-- Sum of two rounded terms differs from the rounded sum by at most 1. -/
lemma jsRound_add2 (a b : ℚ) : |jsRound a + jsRound b - jsRound (a + b)| ≤ 1 := by
  have ha1 := jsRound_cast_le a
  have ha2 := lt_jsRound_cast a
  have hb1 := jsRound_cast_le b
  have hb2 := lt_jsRound_cast b
  have hs1 := jsRound_cast_le (a + b)
  have hs2 := lt_jsRound_cast (a + b)
  rw [abs_le]
  constructor
  · exact int_neg_le_of_rat_lt (by push_cast; linarith)
  · exact int_le_of_rat_lt (by push_cast; linarith)

/-- Sum of three rounded terms differs from the rounded sum by at most 1. -/
lemma jsRound_add3 (a b c : ℚ) :
    |jsRound a + jsRound b + jsRound c - jsRound (a + b + c)| ≤ 1 := by
  have ha1 := jsRound_cast_le a
  have ha2 := lt_jsRound_cast a
  have hb1 := jsRound_cast_le b
  have hb2 := lt_jsRound_cast b
  have hc1 := jsRound_cast_le c
  have hc2 := lt_jsRound_cast c
  have hs1 := jsRound_cast_le (a + b + c)
  have hs2 := lt_jsRound_cast (a + b + c)
  rw [abs_le]
  constructor
  · exact int_neg_le_of_rat_lt (by push_cast; linarith)
  · exact int_le_of_rat_lt (by push_cast; linarith)

/-- Sum of five rounded terms differs from the rounded sum by at most 2. -/
lemma jsRound_add5 (a b c d e : ℚ) :
    |jsRound a + jsRound b + jsRound c + jsRound d + jsRound e -
      jsRound (a + b + c + d + e)| ≤ 2 := by
  have ha1 := jsRound_cast_le a
  have ha2 := lt_jsRound_cast a
  have hb1 := jsRound_cast_le b
  have hb2 := lt_jsRound_cast b
  have hc1 := jsRound_cast_le c
  have hc2 := lt_jsRound_cast c
  have hd1 := jsRound_cast_le d
  have hd2 := lt_jsRound_cast d
  have he1 := jsRound_cast_le e
  have he2 := lt_jsRound_cast e
  have hs1 := jsRound_cast_le (a + b + c + d + e)
  have hs2 := lt_jsRound_cast (a + b + c + d + e)
  rw [abs_le]
  constructor
  · exact int_neg_le_of_rat_lt (by push_cast; linarith)
  · exact int_le_of_rat_lt (by push_cast; linarith)

/-- Rounded total_landscape line items (four component costs plus the 15%
markup line) differ from the rounded marked-up total by at most 2. -/
lemma jsRound_markup_bound (a b c d : ℚ) :
    |jsRound a + jsRound b + jsRound c + jsRound d +
      jsRound ((a + b + c + d) * (3/20)) -
      jsRound ((a + b + c + d) * (23/20))| ≤ 2 := by
  have h := jsRound_add5 a b c d ((a + b + c + d) * (3/20))
  have he : a + b + c + d + (a + b + c + d) * (3/20) = (a + b + c + d) * (23/20) := by
    ring
  rw [he] at h
  exact h

/-! Claims. -/

/-- C4: for condition scores 1,2,3,4,5 the complexity multiplier is exactly
0.90, 1.00, 1.10, 1.25, 1.50; every score outside that set gets the
catch-all fallback 1.0; and when the property's condition score is absent,
the tier calculator substitutes score 3 and so uses multiplier 1.10. -/
theorem claim4_condition_multiplier_table :
    (conditionScoreToMultiplier 1 = 9/10 ∧ conditionScoreToMultiplier 2 = 1 ∧
      conditionScoreToMultiplier 3 = 11/10 ∧ conditionScoreToMultiplier 4 = 5/4 ∧
      conditionScoreToMultiplier 5 = 3/2) ∧
    (∀ s : ℚ, s ≠ 1 → s ≠ 2 → s ≠ 3 → s ≠ 4 → s ≠ 5 →
      conditionScoreToMultiplier s = 1) ∧
    (∀ p : Property, p.conditionScore = none → complexityMultiplierOf p = 11/10) := by
  refine ⟨by norm_num [conditionScoreToMultiplier], ?_, ?_⟩
  · intro s h1 h2 h3 h4 h5
    simp [conditionScoreToMultiplier, h1, h2, h3, h4, h5]
  · intro p hp
    simp [complexityMultiplierOf, jsOr, hp, conditionScoreToMultiplier]

/-- Witness for C4 at concrete inputs: score 7 is outside the table and a
property without a condition score uses multiplier 1.10. -/
theorem claim4_condition_multiplier_table_witness :
    conditionScoreToMultiplier 7 = 1 ∧
    complexityMultiplierOf { conditionScore := none } = 11/10 :=
  ⟨claim4_condition_multiplier_table.2.1 7 (by norm_num) (by norm_num) (by norm_num)
      (by norm_num) (by norm_num),
    claim4_condition_multiplier_table.2.2 { conditionScore := none } rfl⟩

/-- C5: with the service radius at its default 25 miles, the distance
multiplier at 0, 10, 10.01, 20, 20.01, 25 and 25.01 miles is 1.00, 1.00,
1.05, 1.05, 1.10, 1.10 and 1.20 respectively. -/
theorem claim5_distance_multiplier_bands :
    calculateDistanceMultiplier 25 0 = 1 ∧
    calculateDistanceMultiplier 25 10 = 1 ∧
    calculateDistanceMultiplier 25 (1001/100) = 21/20 ∧
    calculateDistanceMultiplier 25 20 = 21/20 ∧
    calculateDistanceMultiplier 25 (2001/100) = 11/10 ∧
    calculateDistanceMultiplier 25 25 = 11/10 ∧
    calculateDistanceMultiplier 25 (2501/100) = 6/5 := by
  norm_num [calculateDistanceMultiplier]

/-- C8 counterexample: at `lawnSqft = 0` the claimed formula yields 0 hours,
but `estimateLaborHours` returns 2 hours for a mowing job at score 3,
because the JS fallback `baseHours[serviceType] || 2` replaces the falsy
base 0 by the default 2. -/
theorem claim8_labor_hours_counterexample :
    estimateLaborHours ServiceType.mowing 0 3 = 2 ∧
    (⌈((0 : ℚ) / 5000) * ((3 : ℚ) / 3) * 2⌉ : ℚ) / 2 = 0 := by
  constructor
  · norm_num [estimateLaborHours, sqftPerHour]
  · norm_num

/-- C8 as amended: for every service type, every positive `lawnSqft` and
every condition score in 1-5, `estimateLaborHours` is the lawn area divided
by the per-service sqft-per-hour ratio, times `score / 3`, rounded up to
the nearest half hour.  (At `lawnSqft = 0` the code instead substitutes a
default base of 2 hours.) -/
theorem claim8_labor_hours (st : ServiceType) (lawnSqft : ℚ) (h : 0 < lawnSqft)
    (score : ℚ) (h1 : 1 ≤ score) (h5 : score ≤ 5) :
    estimateLaborHours st lawnSqft score =
      (⌈(lawnSqft / sqftPerHour st) * (score / 3) * 2⌉ : ℚ) / 2 := by
  have hsp : 0 < sqftPerHour st := by cases st <;> norm_num [sqftPerHour]
  have hne : lawnSqft / sqftPerHour st ≠ 0 := ne_of_gt (div_pos h hsp)
  simp only [estimateLaborHours]
  rw [if_neg hne]

/-- Witness for C8 at a concrete input: a 5000 sqft mowing job at score 3
is exactly 1.0 base hour. -/
theorem claim8_labor_hours_witness :
    estimateLaborHours ServiceType.mowing 5000 3 =
      (⌈((5000 : ℚ) / sqftPerHour ServiceType.mowing) * ((3 : ℚ) / 3) * 2⌉ : ℚ) / 2 :=
  claim8_labor_hours ServiceType.mowing 5000 (by norm_num) 3 (by norm_num) (by norm_num)

/-- C3 counterexample: with the required `MOWING_BASE` card present but
inactive (and all other required cards active), `calculateAllTiers` fails
with the generic runtime type error of the unchecked `.get(...)!` access —
the same error kind any other `undefined` access would produce — rather
than a configuration-specific error kind; the only distinct `AppError` on
this code path, `Failed to load pricing data` (500), is reserved for a
database failure of `loadRateCards` and is not raised here. -/
theorem claim3_missing_card_counterexample :
    calculateAllTiers sampleProperty catalogInactiveMowing 1 0 25 =
      Except.error PricingError.typeError ∧
    PricingError.typeError ≠ PricingError.appError "Failed to load pricing data" 500 := by
  constructor
  · exact calculateAllTiers_err _ _ _ _ _ (Or.inl rfl)
  · simp

/-- C3 as amended: an absent or inactive required rate card makes the
lookup come back empty, and `calculateAllTiers` then surfaces an error to
the caller and returns no partial tier output (it never silently defaults
the missing rate) — but the error is the generic runtime type error, not a
distinct configuration-error kind. -/
theorem claim3_missing_card_aborts :
    (∀ (cards : List RateCard) (code : String),
      (∀ rc ∈ cards, rc.serviceCode = code → rc.active = false) →
      rateCardMapGet cards code = none) ∧
    (∀ (p : Property) (cards : List RateCard) (rm dm md : ℚ),
      (rateCardMapGet cards "MOWING_BASE" = none ∨
        rateCardMapGet cards "LEAF_CLEANUP" = none ∨
        rateCardMapGet cards "SEASONAL_PACKAGE" = none ∨
        rateCardMapGet cards "LIGHTS_INSTALL" = none) →
      calculateAllTiers p cards rm dm md = Except.error PricingError.typeError) := by
  constructor
  · intro cards code h
    unfold rateCardMapGet
    rw [List.find?_eq_none]
    intro rc hrc
    rw [List.mem_reverse, List.mem_filter] at hrc
    intro hbeq
    rw [beq_iff_eq] at hbeq
    have := h rc hrc.1 hbeq
    rw [this] at hrc
    exact Bool.false_ne_true hrc.2
  · intro p cards rm dm md h
    exact calculateAllTiers_err p cards rm dm md h

/-- Witness for C3 (amended) at concrete inputs: the inactive
`MOWING_BASE` card is not found, and the calculation aborts with the
generic type error. -/
theorem claim3_missing_card_aborts_witness :
    rateCardMapGet catalogInactiveMowing "MOWING_BASE" = none ∧
    calculateAllTiers sampleProperty catalogInactiveMowing 1 0 25 =
      Except.error PricingError.typeError :=
  ⟨claim3_missing_card_aborts.1 catalogInactiveMowing "MOWING_BASE" (by decide),
    claim3_missing_card_aborts.2 sampleProperty catalogInactiveMowing 1 0 25
      (Or.inl (claim3_missing_card_aborts.1 catalogInactiveMowing "MOWING_BASE" (by decide)))⟩

/-- C1: whenever the four required cards are found, the total_landscape
quote's annual price is `round(1.15 * (mowingCost + fullLeafCost +
seasonalCost + lightsCost))`, and its breakdown lists the four component
costs at their (whole-unit rounded) pre-markup values plus a
`premiumMarkup` line of `round(0.15 * subtotal)`. -/
theorem claim1_total_landscape_markup (p : Property) (cards : List RateCard)
    (rm dm md : ℚ) (mc lc sc ltc : RateCard)
    (hm : rateCardMapGet cards "MOWING_BASE" = some mc)
    (hl : rateCardMapGet cards "LEAF_CLEANUP" = some lc)
    (hs : rateCardMapGet cards "SEASONAL_PACKAGE" = some sc)
    (hlt : rateCardMapGet cards "LIGHTS_INSTALL" = some ltc) :
    ∃ q, findTier (calculateAllTiers p cards rm dm md) TierType.total_landscape = some q ∧
      q.annualPrice = jsRound ((23/20) * (mowingCostFor p mc rm dm md +
        fullLeafCostFor p lc rm dm md + seasonalCostFor p sc rm dm md +
        lightsCostFor p ltc rm dm md)) ∧
      q.breakdown =
        [("mowing", jsRound (mowingCostFor p mc rm dm md)),
         ("leafCleanup", jsRound (fullLeafCostFor p lc rm dm md)),
         ("seasonal", jsRound (seasonalCostFor p sc rm dm md)),
         ("lights", jsRound (lightsCostFor p ltc rm dm md)),
         ("premiumMarkup", jsRound ((3/20) * (mowingCostFor p mc rm dm md +
           fullLeafCostFor p lc rm dm md + seasonalCostFor p sc rm dm md +
           lightsCostFor p ltc rm dm md)))] := by
  rw [calculateAllTiers_ok p cards rm dm md mc lc sc ltc hm hl hs hlt]
  refine ⟨_, rfl, ?_, ?_⟩
  · exact congrArg jsRound (mul_comm _ _)
  · simp only [mul_comm]
    rfl

/-- Witness for C1 on the end-to-end scenario catalog and property. -/
theorem claim1_total_landscape_markup_witness :
    ∃ q, findTier (calculateAllTiers sampleProperty sampleCatalog (21/20) 8 25)
        TierType.total_landscape = some q ∧
      q.annualPrice = jsRound ((23/20) * (mowingCostFor sampleProperty
        { serviceCode := "MOWING_BASE", baseRate := 9/2, factor := 30, active := true }
        (21/20) 8 25 +
        fullLeafCostFor sampleProperty
          { serviceCode := "LEAF_CLEANUP", baseRate := 6, factor := 2, active := true }
          (21/20) 8 25 +
        seasonalCostFor sampleProperty
          { serviceCode := "SEASONAL_PACKAGE", baseRate := 650, factor := 1, active := true }
          (21/20) 8 25 +
        lightsCostFor sampleProperty
          { serviceCode := "LIGHTS_INSTALL", baseRate := 3, factor := 1, active := true }
          (21/20) 8 25)) ∧
      q.breakdown =
        [("mowing", jsRound (mowingCostFor sampleProperty
          { serviceCode := "MOWING_BASE", baseRate := 9/2, factor := 30, active := true }
          (21/20) 8 25)),
         ("leafCleanup", jsRound (fullLeafCostFor sampleProperty
           { serviceCode := "LEAF_CLEANUP", baseRate := 6, factor := 2, active := true }
           (21/20) 8 25)),
         ("seasonal", jsRound (seasonalCostFor sampleProperty
           { serviceCode := "SEASONAL_PACKAGE", baseRate := 650, factor := 1, active := true }
           (21/20) 8 25)),
         ("lights", jsRound (lightsCostFor sampleProperty
           { serviceCode := "LIGHTS_INSTALL", baseRate := 3, factor := 1, active := true }
           (21/20) 8 25)),
         ("premiumMarkup", jsRound ((3/20) * (mowingCostFor sampleProperty
           { serviceCode := "MOWING_BASE", baseRate := 9/2, factor := 30, active := true }
           (21/20) 8 25 +
           fullLeafCostFor sampleProperty
             { serviceCode := "LEAF_CLEANUP", baseRate := 6, factor := 2, active := true }
             (21/20) 8 25 +
           seasonalCostFor sampleProperty
             { serviceCode := "SEASONAL_PACKAGE", baseRate := 650, factor := 1, active := true }
             (21/20) 8 25 +
           lightsCostFor sampleProperty
             { serviceCode := "LIGHTS_INSTALL", baseRate := 3, factor := 1, active := true }
             (21/20) 8 25)))] :=
  claim1_total_landscape_markup sampleProperty sampleCatalog (21/20) 8 25
    _ _ _ _ rfl rfl rfl rfl

/-- C7 counterexample: for a grass_roots annual total of exactly 5.60, the
returned quote has `annualPrice = 6` and `monthlyPrice = 0` (the monthly
price is computed from the unrounded total `5.60 / 12 ≈ 0.467`), whereas
`round(annualPrice / 12) = round(0.5) = 1`. -/
theorem claim7_monthly_counterexample :
    (findTier (calculateAllTiers propertyMonthlyGap catalogMonthlyGap 1 0 25)
        TierType.grass_roots).map (fun q => (q.annualPrice, q.monthlyPrice)) =
      some (6, 0) ∧
    jsRound ((6 : ℚ) / 12) = 1 ∧ (0 : ℤ) ≠ 1 := by
  refine ⟨?_, by norm_num [jsRound], by decide⟩
  rw [calculateAllTiers_ok propertyMonthlyGap catalogMonthlyGap 1 0 25 _ _ _ _
    rfl rfl rfl rfl]
  norm_num [findTier, tierQuotesFor, totalMultiplierFor, complexityMultiplierOf,
    conditionScoreToMultiplier, calculateDistanceMultiplier, jsOr, jsRound, roundCents,
    calculateMowingCost, calculateLeafCleanupCost, propertyMonthlyGap, List.find?]

/-- C7 as amended: every quote of `calculateAllTiers` has its `annualPrice`
and `monthlyPrice` derived from one and the same unrounded annual total
`A`: `annualPrice = round(A)` and `monthlyPrice = round(A / 12)` — the
monthly price divides the unrounded total, not the already-rounded
`annualPrice`. -/
theorem claim7_monthly_price (p : Property) (cards : List RateCard)
    (rm dm md : ℚ) (mc lc sc ltc : RateCard)
    (hm : rateCardMapGet cards "MOWING_BASE" = some mc)
    (hl : rateCardMapGet cards "LEAF_CLEANUP" = some lc)
    (hs : rateCardMapGet cards "SEASONAL_PACKAGE" = some sc)
    (hlt : rateCardMapGet cards "LIGHTS_INSTALL" = some ltc) :
    ∃ q1 q2 q3,
      findTier (calculateAllTiers p cards rm dm md) TierType.grass_roots = some q1 ∧
      findTier (calculateAllTiers p cards rm dm md) TierType.premier = some q2 ∧
      findTier (calculateAllTiers p cards rm dm md) TierType.total_landscape = some q3 ∧
      (∃ A : ℚ, q1.annualPrice = jsRound A ∧ q1.monthlyPrice = jsRound (A / 12)) ∧
      (∃ A : ℚ, q2.annualPrice = jsRound A ∧ q2.monthlyPrice = jsRound (A / 12)) ∧
      (∃ A : ℚ, q3.annualPrice = jsRound A ∧ q3.monthlyPrice = jsRound (A / 12)) := by
  rw [calculateAllTiers_ok p cards rm dm md mc lc sc ltc hm hl hs hlt]
  exact ⟨_, _, _, rfl, rfl, rfl, ⟨_, rfl, rfl⟩, ⟨_, rfl, rfl⟩, ⟨_, rfl, rfl⟩⟩

/-- Witness for C7 (amended) on the end-to-end scenario inputs. -/
theorem claim7_monthly_price_witness :
    ∃ q1 q2 q3,
      findTier (calculateAllTiers sampleProperty sampleCatalog (21/20) 8 25)
        TierType.grass_roots = some q1 ∧
      findTier (calculateAllTiers sampleProperty sampleCatalog (21/20) 8 25)
        TierType.premier = some q2 ∧
      findTier (calculateAllTiers sampleProperty sampleCatalog (21/20) 8 25)
        TierType.total_landscape = some q3 ∧
      (∃ A : ℚ, q1.annualPrice = jsRound A ∧ q1.monthlyPrice = jsRound (A / 12)) ∧
      (∃ A : ℚ, q2.annualPrice = jsRound A ∧ q2.monthlyPrice = jsRound (A / 12)) ∧
      (∃ A : ℚ, q3.annualPrice = jsRound A ∧ q3.monthlyPrice = jsRound (A / 12)) :=
  claim7_monthly_price sampleProperty sampleCatalog (21/20) 8 25 _ _ _ _
    rfl rfl rfl rfl

/-- C2: for a valid property snapshot (non-negative effective lawn and
roofline measurements), a non-negative regional multiplier, and a catalog
whose entries all satisfy `baseRate ≥ 0` and `factor ≥ 1` and which
resolves the four required cards, the three annual prices are ordered
grass_roots ≤ premier ≤ total_landscape. -/
theorem claim2_tier_ordering (p : Property) (cards : List RateCard)
    (rm dm md : ℚ) (mc lc sc ltc : RateCard)
    (hcards : ∀ rc ∈ cards, 0 ≤ rc.baseRate ∧ 1 ≤ rc.factor)
    (hrm : 0 ≤ rm) (hlawn : 0 ≤ jsOr p.lawnSqft 0) (hroof : 0 ≤ jsOr p.rooflineFt 0)
    (hm : rateCardMapGet cards "MOWING_BASE" = some mc)
    (hl : rateCardMapGet cards "LEAF_CLEANUP" = some lc)
    (hs : rateCardMapGet cards "SEASONAL_PACKAGE" = some sc)
    (hlt : rateCardMapGet cards "LIGHTS_INSTALL" = some ltc) :
    ∃ q1 q2 q3,
      findTier (calculateAllTiers p cards rm dm md) TierType.grass_roots = some q1 ∧
      findTier (calculateAllTiers p cards rm dm md) TierType.premier = some q2 ∧
      findTier (calculateAllTiers p cards rm dm md) TierType.total_landscape = some q3 ∧
      q1.annualPrice ≤ q2.annualPrice ∧ q2.annualPrice ≤ q3.annualPrice := by
  have htm : 0 ≤ totalMultiplierFor p rm dm md := totalMultiplierFor_nonneg hrm dm md
  obtain ⟨hbm, hfm⟩ := hcards mc (rateCardMapGet_mem hm)
  obtain ⟨hbl, hfl⟩ := hcards lc (rateCardMapGet_mem hl)
  obtain ⟨hbs, _⟩ := hcards sc (rateCardMapGet_mem hs)
  obtain ⟨hblt, _⟩ := hcards ltc (rateCardMapGet_mem hlt)
  have hM : 0 ≤ calculateMowingCost (jsOr p.lawnSqft 0) mc (totalMultiplierFor p rm dm md) :=
    calculateMowingCost_nonneg hlawn hbm (le_trans zero_le_one hfm) htm
  have hL : 0 ≤ calculateLeafCleanupCost (jsOr p.lawnSqft 0) lc
      (totalMultiplierFor p rm dm md) true :=
    calculateLeafCleanupCost_nonneg hlawn hbl (le_trans zero_le_one hfl) htm
  have hS : 0 ≤ calculateSeasonalPackageCost sc (totalMultiplierFor p rm dm md) :=
    calculateSeasonalPackageCost_nonneg hbs htm
  have hLt : 0 ≤ calculateLightsCost (jsOr p.rooflineFt 0) ltc
      (totalMultiplierFor p rm dm md) :=
    calculateLightsCost_nonneg hroof hblt htm
  rw [calculateAllTiers_ok p cards rm dm md mc lc sc ltc hm hl hs hlt]
  refine ⟨_, _, _, rfl, rfl, rfl, ?_, ?_⟩
  · exact jsRound_mono (by linarith)
  · exact jsRound_mono (by linarith)

/-- Witness for C2 on the end-to-end scenario inputs. -/
theorem claim2_tier_ordering_witness :
    ∃ q1 q2 q3,
      findTier (calculateAllTiers sampleProperty sampleCatalog (21/20) 8 25)
        TierType.grass_roots = some q1 ∧
      findTier (calculateAllTiers sampleProperty sampleCatalog (21/20) 8 25)
        TierType.premier = some q2 ∧
      findTier (calculateAllTiers sampleProperty sampleCatalog (21/20) 8 25)
        TierType.total_landscape = some q3 ∧
      q1.annualPrice ≤ q2.annualPrice ∧ q2.annualPrice ≤ q3.annualPrice :=
  claim2_tier_ordering sampleProperty sampleCatalog (21/20) 8 25 _ _ _ _
    (by intro rc hrc; fin_cases hrc <;> norm_num)
    (by norm_num) (by norm_num [sampleProperty, jsOr]) (by norm_num [sampleProperty, jsOr])
    rfl rfl rfl rfl

/-- C6 counterexample: with all four component costs exactly 0.50, the
total_landscape breakdown lines sum to 4 while the annual price is
`round(2.0 * 1.15) = 2` — a discrepancy of 2 currency units, outside the
claimed ±1 tolerance. -/
theorem claim6_breakdown_counterexample :
    (findTier (calculateAllTiers propertyHalves catalogHalves 1 0 25)
        TierType.total_landscape).map (fun q => (breakdownSum q, q.annualPrice)) =
      some (4, 2) ∧
    ¬ |(4 : ℤ) - 2| ≤ 1 := by
  refine ⟨?_, by decide⟩
  rw [calculateAllTiers_ok propertyHalves catalogHalves 1 0 25 _ _ _ _
    rfl rfl rfl rfl]
  norm_num [findTier, tierQuotesFor, breakdownSum, totalMultiplierFor,
    complexityMultiplierOf, conditionScoreToMultiplier, calculateDistanceMultiplier,
    jsOr, jsRound, roundCents, calculateMowingCost, calculateLeafCleanupCost,
    calculateSeasonalPackageCost, calculateLightsCost, propertyHalves, List.find?,
    show (TierType.grass_roots == TierType.total_landscape) = false from rfl,
    show (TierType.premier == TierType.total_landscape) = false from rfl,
    show (TierType.total_landscape == TierType.total_landscape) = true from rfl]

/-- C6 as amended: for every property and every catalog resolving the four
required cards, the grass_roots and premier breakdowns sum to their
`annualPrice` within ±1 currency unit, and the total_landscape breakdown
sums to its `annualPrice` within ±2 currency units. -/
theorem claim6_breakdown_sums (p : Property) (cards : List RateCard)
    (rm dm md : ℚ) (mc lc sc ltc : RateCard)
    (hm : rateCardMapGet cards "MOWING_BASE" = some mc)
    (hl : rateCardMapGet cards "LEAF_CLEANUP" = some lc)
    (hs : rateCardMapGet cards "SEASONAL_PACKAGE" = some sc)
    (hlt : rateCardMapGet cards "LIGHTS_INSTALL" = some ltc) :
    ∃ q1 q2 q3,
      findTier (calculateAllTiers p cards rm dm md) TierType.grass_roots = some q1 ∧
      findTier (calculateAllTiers p cards rm dm md) TierType.premier = some q2 ∧
      findTier (calculateAllTiers p cards rm dm md) TierType.total_landscape = some q3 ∧
      |breakdownSum q1 - q1.annualPrice| ≤ 1 ∧
      |breakdownSum q2 - q2.annualPrice| ≤ 1 ∧
      |breakdownSum q3 - q3.annualPrice| ≤ 2 := by
  rw [calculateAllTiers_ok p cards rm dm md mc lc sc ltc hm hl hs hlt]
  refine ⟨_, _, _, rfl, rfl, rfl, ?_, ?_, ?_⟩
  · simpa [breakdownSum, add_assoc] using jsRound_add2 _ _
  · simpa [breakdownSum, add_assoc] using jsRound_add3 _ _ _
  · simpa [breakdownSum, add_assoc] using jsRound_markup_bound _ _ _ _

/-- Witness for C6 (amended) on the end-to-end scenario inputs. -/
theorem claim6_breakdown_sums_witness :
    ∃ q1 q2 q3,
      findTier (calculateAllTiers sampleProperty sampleCatalog (21/20) 8 25)
        TierType.grass_roots = some q1 ∧
      findTier (calculateAllTiers sampleProperty sampleCatalog (21/20) 8 25)
        TierType.premier = some q2 ∧
      findTier (calculateAllTiers sampleProperty sampleCatalog (21/20) 8 25)
        TierType.total_landscape = some q3 ∧
      |breakdownSum q1 - q1.annualPrice| ≤ 1 ∧
      |breakdownSum q2 - q2.annualPrice| ≤ 1 ∧
      |breakdownSum q3 - q3.annualPrice| ≤ 2 :=
  claim6_breakdown_sums sampleProperty sampleCatalog (21/20) 8 25 _ _ _ _
    rfl rfl rfl rfl

/-- C9: a property with 600 sqft of overgrown beds and 8 bushes, quoted at
the premier tier against a catalog resolving the EDGING, BUSH_TRIMMING,
MULCH_INSTALL and BED_MAINTENANCE cards, receives the bed-edging,
bush-trimming, mulch-install and bed-maintenance upsells, each with
`recommended = true`. -/
theorem claim9_upsell_triggers (p : Property) (st : ServiceType) (sqrtFn : ℚ → ℚ)
    (cards : List RateCard) (ec bc muc bmc : RateCard)
    (hbed : p.bedSqft = some 600)
    (hcond : p.bedCondition = some BedCondition.overgrown)
    (hbush : p.bushCount = some 8)
    (he : rateCardMapGet cards "EDGING" = some ec)
    (hb : rateCardMapGet cards "BUSH_TRIMMING" = some bc)
    (hmu : rateCardMapGet cards "MULCH_INSTALL" = some muc)
    (hbm : rateCardMapGet cards "BED_MAINTENANCE" = some bmc) :
    (∃ u ∈ generateUpsells p st TierType.premier sqrtFn (some cards),
      u.serviceCode = "EDGING" ∧ u.recommended = true) ∧
    (∃ u ∈ generateUpsells p st TierType.premier sqrtFn (some cards),
      u.serviceCode = "BUSH_TRIMMING" ∧ u.recommended = true) ∧
    (∃ u ∈ generateUpsells p st TierType.premier sqrtFn (some cards),
      u.serviceCode = "MULCH_INSTALL" ∧ u.recommended = true) ∧
    (∃ u ∈ generateUpsells p st TierType.premier sqrtFn (some cards),
      u.serviceCode = "BED_MAINTENANCE" ∧ u.recommended = true) := by
  have h1 : upsellEdgingRule p sqrtFn cards =
      [ { serviceCode := "EDGING", serviceName := "Professional Bed Edging",
          price := jsRound (sqrtFn 600 * 4 * ec.baseRate), recommended := true } ] := by
    norm_num [upsellEdgingRule, hbed, hcond, he, jsTruthy]
    all_goals decide
  have h2 : upsellBushRule p cards =
      [ { serviceCode := "BUSH_TRIMMING", serviceName := "Seasonal Bush Trimming",
          price := jsRound (8 * bc.baseRate), recommended := true } ] := by
    norm_num [upsellBushRule, hbush, hcond, hb, jsTruthy]
  have h3 : upsellMulchRule p cards =
      [ { serviceCode := "MULCH_INSTALL", serviceName := "Fresh Mulch Installation",
          price := jsRound (calculateMulchYardage 600 3 * muc.baseRate),
          recommended := true } ] := by
    norm_num [upsellMulchRule, hbed, hcond, hmu, jsTruthy]
    all_goals decide
  have h4 : upsellBedMaintenanceRule p TierType.premier cards =
      [ { serviceCode := "BED_MAINTENANCE", serviceName := "Monthly Bed Maintenance",
          price := jsRound (600 / 100 * bmc.baseRate * 12), recommended := true } ] := by
    norm_num [upsellBedMaintenanceRule, hbed, hbm, jsTruthy]
  have hsplit : generateUpsells p st TierType.premier sqrtFn (some cards) =
      upsellEdgingRule p sqrtFn cards ++ upsellBushRule p cards ++
      upsellMulchRule p cards ++ upsellBedMaintenanceRule p TierType.premier cards ++
      upsellLeafUpgradeRule p TierType.premier cards ++
      upsellSeasonalRule p TierType.premier cards ++
      upsellLightsRule p TierType.premier cards := rfl
  rw [hsplit, h1, h2, h3, h4]
  exact ⟨⟨_, List.mem_append_left _ (List.mem_append_left _ (List.mem_append_left _
      (List.mem_append_left _ (List.mem_append_left _ (List.mem_append_left _
        (List.mem_singleton_self _)))))), rfl, rfl⟩,
    ⟨_, List.mem_append_left _ (List.mem_append_left _ (List.mem_append_left _
      (List.mem_append_left _ (List.mem_append_left _ (List.mem_append_right _
        (List.mem_singleton_self _)))))), rfl, rfl⟩,
    ⟨_, List.mem_append_left _ (List.mem_append_left _ (List.mem_append_left _
      (List.mem_append_left _ (List.mem_append_right _
        (List.mem_singleton_self _))))), rfl, rfl⟩,
    ⟨_, List.mem_append_left _ (List.mem_append_left _ (List.mem_append_left _
      (List.mem_append_right _ (List.mem_singleton_self _)))), rfl, rfl⟩⟩

/-- Witness for C9 at a concrete property, catalog and square-root
function. -/
theorem claim9_upsell_triggers_witness :
    (∃ u ∈ generateUpsells propertyUpsell ServiceType.mowing TierType.premier
        (fun _ => 0) (some upsellCatalog),
      u.serviceCode = "EDGING" ∧ u.recommended = true) ∧
    (∃ u ∈ generateUpsells propertyUpsell ServiceType.mowing TierType.premier
        (fun _ => 0) (some upsellCatalog),
      u.serviceCode = "BUSH_TRIMMING" ∧ u.recommended = true) ∧
    (∃ u ∈ generateUpsells propertyUpsell ServiceType.mowing TierType.premier
        (fun _ => 0) (some upsellCatalog),
      u.serviceCode = "MULCH_INSTALL" ∧ u.recommended = true) ∧
    (∃ u ∈ generateUpsells propertyUpsell ServiceType.mowing TierType.premier
        (fun _ => 0) (some upsellCatalog),
      u.serviceCode = "BED_MAINTENANCE" ∧ u.recommended = true) :=
  claim9_upsell_triggers propertyUpsell ServiceType.mowing (fun _ => 0)
    upsellCatalog _ _ _ _ rfl rfl rfl rfl rfl rfl rfl

/-- An empty EDGING lookup silences rule 1. -/
lemma upsellEdgingRule_none {p : Property} {sqrtFn : ℚ → ℚ} {cards : List RateCard}
    (h : rateCardMapGet cards "EDGING" = none) :
    upsellEdgingRule p sqrtFn cards = [] := by
  simp [upsellEdgingRule, h]

/-- An empty BUSH_TRIMMING lookup silences rule 2. -/
lemma upsellBushRule_none {p : Property} {cards : List RateCard}
    (h : rateCardMapGet cards "BUSH_TRIMMING" = none) :
    upsellBushRule p cards = [] := by
  simp [upsellBushRule, h]

/-- An empty MULCH_INSTALL lookup silences rule 3. -/
lemma upsellMulchRule_none {p : Property} {cards : List RateCard}
    (h : rateCardMapGet cards "MULCH_INSTALL" = none) :
    upsellMulchRule p cards = [] := by
  simp [upsellMulchRule, h]

/-- An empty BED_MAINTENANCE lookup silences rule 4. -/
lemma upsellBedMaintenanceRule_none {p : Property} {tier : TierType} {cards : List RateCard}
    (h : rateCardMapGet cards "BED_MAINTENANCE" = none) :
    upsellBedMaintenanceRule p tier cards = [] := by
  simp [upsellBedMaintenanceRule, h]

/-- An empty LEAF_CLEANUP lookup silences rule 5. -/
lemma upsellLeafUpgradeRule_none {p : Property} {tier : TierType} {cards : List RateCard}
    (h : rateCardMapGet cards "LEAF_CLEANUP" = none) :
    upsellLeafUpgradeRule p tier cards = [] := by
  simp [upsellLeafUpgradeRule, h]

/-- An empty SEASONAL_PACKAGE lookup silences rule 6. -/
lemma upsellSeasonalRule_none {p : Property} {tier : TierType} {cards : List RateCard}
    (h : rateCardMapGet cards "SEASONAL_PACKAGE" = none) :
    upsellSeasonalRule p tier cards = [] := by
  simp [upsellSeasonalRule, h]

/-- An empty LIGHTS_INSTALL lookup silences rule 7. -/
lemma upsellLightsRule_none {p : Property} {tier : TierType} {cards : List RateCard}
    (h : rateCardMapGet cards "LIGHTS_INSTALL" = none) :
    upsellLightsRule p tier cards = [] := by
  simp [upsellLightsRule, h]

/-- C10: when the rate cards cannot be loaded at all, `generateUpsells`
returns the empty upsell list instead of raising an error; and when the
rate card of any individual rule is missing from the catalog, that rule
silently contributes nothing while the other six rules still evaluate and
contribute exactly their usual upsells. -/
theorem claim10_upsell_resilience :
    (∀ (p : Property) (st : ServiceType) (tier : TierType) (sqrtFn : ℚ → ℚ),
      generateUpsells p st tier sqrtFn none = []) ∧
    (∀ (p : Property) (st : ServiceType) (tier : TierType) (sqrtFn : ℚ → ℚ)
        (cards : List RateCard),
      (rateCardMapGet cards "EDGING" = none →
        generateUpsells p st tier sqrtFn (some cards) =
          upsellBushRule p cards ++ upsellMulchRule p cards ++
          upsellBedMaintenanceRule p tier cards ++ upsellLeafUpgradeRule p tier cards ++
          upsellSeasonalRule p tier cards ++ upsellLightsRule p tier cards) ∧
      (rateCardMapGet cards "BUSH_TRIMMING" = none →
        generateUpsells p st tier sqrtFn (some cards) =
          upsellEdgingRule p sqrtFn cards ++ upsellMulchRule p cards ++
          upsellBedMaintenanceRule p tier cards ++ upsellLeafUpgradeRule p tier cards ++
          upsellSeasonalRule p tier cards ++ upsellLightsRule p tier cards) ∧
      (rateCardMapGet cards "MULCH_INSTALL" = none →
        generateUpsells p st tier sqrtFn (some cards) =
          upsellEdgingRule p sqrtFn cards ++ upsellBushRule p cards ++
          upsellBedMaintenanceRule p tier cards ++ upsellLeafUpgradeRule p tier cards ++
          upsellSeasonalRule p tier cards ++ upsellLightsRule p tier cards) ∧
      (rateCardMapGet cards "BED_MAINTENANCE" = none →
        generateUpsells p st tier sqrtFn (some cards) =
          upsellEdgingRule p sqrtFn cards ++ upsellBushRule p cards ++
          upsellMulchRule p cards ++ upsellLeafUpgradeRule p tier cards ++
          upsellSeasonalRule p tier cards ++ upsellLightsRule p tier cards) ∧
      (rateCardMapGet cards "LEAF_CLEANUP" = none →
        generateUpsells p st tier sqrtFn (some cards) =
          upsellEdgingRule p sqrtFn cards ++ upsellBushRule p cards ++
          upsellMulchRule p cards ++ upsellBedMaintenanceRule p tier cards ++
          upsellSeasonalRule p tier cards ++ upsellLightsRule p tier cards) ∧
      (rateCardMapGet cards "SEASONAL_PACKAGE" = none →
        generateUpsells p st tier sqrtFn (some cards) =
          upsellEdgingRule p sqrtFn cards ++ upsellBushRule p cards ++
          upsellMulchRule p cards ++ upsellBedMaintenanceRule p tier cards ++
          upsellLeafUpgradeRule p tier cards ++ upsellLightsRule p tier cards) ∧
      (rateCardMapGet cards "LIGHTS_INSTALL" = none →
        generateUpsells p st tier sqrtFn (some cards) =
          upsellEdgingRule p sqrtFn cards ++ upsellBushRule p cards ++
          upsellMulchRule p cards ++ upsellBedMaintenanceRule p tier cards ++
          upsellLeafUpgradeRule p tier cards ++ upsellSeasonalRule p tier cards)) := by
  refine ⟨fun p st tier sqrtFn => rfl, fun p st tier sqrtFn cards =>
    ⟨fun h => ?_, fun h => ?_, fun h => ?_, fun h => ?_, fun h => ?_, fun h => ?_,
      fun h => ?_⟩⟩
  · simp [generateUpsells, upsellEdgingRule_none h]
  · simp [generateUpsells, upsellBushRule_none h]
  · simp [generateUpsells, upsellMulchRule_none h]
  · simp [generateUpsells, upsellBedMaintenanceRule_none h]
  · simp [generateUpsells, upsellLeafUpgradeRule_none h]
  · simp [generateUpsells, upsellSeasonalRule_none h]
  · simp [generateUpsells, upsellLightsRule_none h]

/-- Witness for C10: an unloadable catalog yields no upsells, and a catalog
without an EDGING card yields exactly the other six rules' outputs. -/
theorem claim10_upsell_resilience_witness :
    generateUpsells propertyUpsell ServiceType.mowing TierType.premier
      (fun _ => 0) none = [] ∧
    generateUpsells propertyUpsell ServiceType.mowing TierType.premier
        (fun _ => 0) (some upsellCatalogNoEdging) =
      upsellBushRule propertyUpsell upsellCatalogNoEdging ++
      upsellMulchRule propertyUpsell upsellCatalogNoEdging ++
      upsellBedMaintenanceRule propertyUpsell TierType.premier upsellCatalogNoEdging ++
      upsellLeafUpgradeRule propertyUpsell TierType.premier upsellCatalogNoEdging ++
      upsellSeasonalRule propertyUpsell TierType.premier upsellCatalogNoEdging ++
      upsellLightsRule propertyUpsell TierType.premier upsellCatalogNoEdging :=
  ⟨claim10_upsell_resilience.1 propertyUpsell ServiceType.mowing TierType.premier
      (fun _ => 0),
    (claim10_upsell_resilience.2 propertyUpsell ServiceType.mowing TierType.premier
      (fun _ => 0) upsellCatalogNoEdging).1 rfl⟩

end Pricing
